import Mathlib

/-!
Verification of the docuscribe adapter (`main.py`): a shallow embedding of the
two tools `list_all_docs` and `fetch_doc_content` and proofs of the
specification's claims about them.

JSON values returned by the backend are modelled by `Json`; Python exceptions
that the code can raise while handling them are modelled by `Except PyExc`.
The backend listing endpoint is an abstract function from the (clamped) query
parameters to an HTTP response; the content endpoint's response is a plain
input, and whether the code contacted it at all is recorded in the result.
-/

namespace Docuscribe

/-- A JSON value as decoded by `resp.json()` (Python: None / bool / int /
str / list / dict).  Floats do not occur in any claim and are omitted. -/
inductive Json where
  | null
  | bool (b : Bool)
  | num (n : Int)
  | str (s : String)
  | arr (elems : List Json)
  | obj (members : List (String × Json))

/-- Python exceptions the adapter's response handling can raise. -/
inductive PyExc where
  | typeError
  | attributeError
deriving DecidableEq

/-- An HTTP response: status code plus decoded body (`none` models a body
that is not valid JSON, where `resp.json()` raises `ValueError`). -/
structure HttpResponse where
  status : Nat
  body : Option Json

/-- Association lookup in a JSON object, first binding wins (Python dicts
have unique keys, so this is dict lookup). -/
def jlookup (kvs : List (String × Json)) (k : String) : Option Json :=
  (kvs.find? (fun p => p.1 == k)).map (fun p => p.2)

/-- Python dict assignment `d[k] = v`: replace in place if the key exists,
else append (insertion order preserved). -/
def setKey (kvs : List (String × Json)) (k : String) (v : Json) :
    List (String × Json) :=
  if kvs.any (fun p => p.1 == k) then
    kvs.map (fun p => if p.1 == k then (k, v) else p)
  else kvs ++ [(k, v)]

/-- Python `v.get(k, dflt)`: raises `AttributeError` when `v` is not a dict. -/
def pyGetD (v : Json) (k : String) (dflt : Json) : Except PyExc Json :=
  match v with
  | .obj kvs => .ok ((jlookup kvs k).getD dflt)
  | _ => .error .attributeError

/-- Python `k in v` for a string `k`: key test on dicts, element equality on
lists (a string equals only an equal string), substring test on strings,
`TypeError` otherwise. -/
def pyIn (k : String) (v : Json) : Except PyExc Bool :=
  match v with
  | .obj kvs => .ok (kvs.any (fun p => p.1 == k))
  | .arr xs => .ok (xs.any (fun x => match x with | .str t => t == k | _ => false))
  | .str s => .ok (decide (k.toList <:+: s.toList))
  | _ => .error .typeError

/-- Outcome of one `list_all_docs` call: the (clamped) `limit`/`offset`
actually sent in the query string, and the tool's result — the JSON value it
serializes and returns, or the Python exception it raises. -/
structure ListCall where
  sentLimit : Int
  sentOffset : Int
  result : Except PyExc Json

/-- Handling of the listing endpoint's response (`main.py` lines 75-89):
non-200 status and JSON-decode failure become error objects; otherwise the
body is echoed with a `_request` field added — which raises `TypeError`
when the decoded body is not a dict. -/
def listHandleResponse (limit offset : Int) (resp : HttpResponse) :
    Except PyExc Json :=
  if resp.status ≠ 200 then
    .ok (.obj [("error", .str "list_all_docs failed"),
               ("status", .num (resp.status : Int))])
  else
    match resp.body with
    | none => .ok (.obj [("error", .str "Failed to decode JSON from list_all_docs")])
    | some data =>
      match data with
      | .obj kvs =>
        .ok (.obj (setKey kvs "_request"
          (.obj [("limit", .num limit), ("offset", .num offset)])))
      | _ => .error .typeError

/-- The `list_all_docs` tool (`main.py` lines 64-89).  `backend` maps the
query's `limit` and `offset` to the listing endpoint's response. -/
def list_all_docs (limit offset : Int)
    (backend : Int → Int → HttpResponse) : ListCall :=
  let limit := if limit < 1 then 1 else limit
  let limit := if limit > 1000 then 1000 else limit
  let offset := if offset < 0 then 0 else offset
  { sentLimit := limit, sentOffset := offset,
    result := listHandleResponse limit offset (backend limit offset) }

/-- Python `any(d.get("id") == doc_uid for d in documents)` over the items of
a list: short-circuits at the first match, raises `AttributeError` at the
first non-dict item reached. -/
def checkAnyId (ds : List Json) (uid : String) : Except PyExc Bool :=
  match ds with
  | [] => .ok false
  | d :: ds =>
    match d with
    | .obj kvs =>
      match jlookup kvs "id" with
      | some (.str t) => if t == uid then .ok true else checkAnyId ds uid
      | _ => checkAnyId ds uid
    | _ => .error .attributeError

/-- Python `any(... for d in documents)` when `documents` may not be a list:
iterating a string yields its characters and a dict its keys — both strings,
so `.get` raises `AttributeError` unless the iteration is empty; other
non-iterables raise `TypeError`. -/
def iterAnyId (documents : Json) (uid : String) : Except PyExc Bool :=
  match documents with
  | .arr ds => checkAnyId ds uid
  | .str s => if s.isEmpty then .ok false else .error .attributeError
  | .obj kvs => if kvs.isEmpty then .ok false else .error .attributeError
  | _ => .error .typeError

/-- The `try`/`except` of `main.py` lines 158-162: from the outcome of
parsing the internally fetched catalog, obtain the `documents` value,
falling back to the empty list if parsing raised, if the parsed value is not
a dict (so `.get` raises), or if the key is absent. -/
def extractDocuments (docsData : Except PyExc Json) : Json :=
  match docsData with
  | .error _ => .arr []
  | .ok d =>
    match d with
    | .obj kvs => (jlookup kvs "documents").getD (.arr [])
    | _ => .arr []

/-- Mode selection and clamping of `fetch_doc_content` (`main.py` lines
169-188): the list of query parameters sent to the content endpoint. -/
def buildParams (start max_length : Option Int) (ranges : Option String) :
    List String :=
  match ranges with
  | some r =>
    if r ≠ "" then ["ranges=" ++ r]
    else buildSingleOrIndex start max_length
  | none => buildSingleOrIndex start max_length
where
  /-- The `else` branch (lines 173-188): Single-Range when either parameter
  was supplied, Index otherwise. -/
  buildSingleOrIndex (start max_length : Option Int) : List String :=
    if start.isSome ∨ max_length.isSome then
      let start := start.getD 0
      let start := if start < 0 then 0 else start
      let max_length := max_length.getD 10000
      let max_length := if max_length < 1 then 1 else max_length
      let max_length := if max_length > 50000 then 50000 else max_length
      ["start=" ++ toString start, "max_length=" ++ toString max_length]
    else []

/-- The `Document '<doc_uid>' not found` error object. -/
def notFoundObj (uid : String) : Json :=
  .obj [("error", .str ("Document '" ++ uid ++ "' not found"))]

/-- Handling of the content endpoint's response (`main.py` lines 195-221):
non-200 and decode failures become error objects; on success, `document` and
`meta` are extracted (raising `AttributeError` if the body is not a dict)
and `has_more` / `next_start` are copied up from `meta` when present. -/
def contentHandleResponse (resp : HttpResponse) : Except PyExc Json :=
  if resp.status ≠ 200 then
    .ok (.obj [("error", .str "fetch_doc_content failed"),
               ("status", .num (resp.status : Int))])
  else
    match resp.body with
    | none => .ok (.obj [("error", .str "Failed to decode JSON from fetch_doc_content")])
    | some data => do
      let document ← pyGetD data "document" (.obj [])
      let meta ← pyGetD data "meta" (.obj [])
      let result := [("document", document), ("meta", meta)]
      let hasMore ← pyIn "has_more" meta
      let result ← if hasMore then do
          let v ← pyGetD meta "has_more" .null
          pure (result ++ [("has_more", v)])
        else pure result
      let nextStart ← pyIn "next_start" meta
      let result ← if nextStart then do
          let v ← pyGetD meta "next_start" .null
          pure (result ++ [("next_start", v)])
        else pure result
      pure (.obj result)

/-- Outcome of one `fetch_doc_content` call: the query parameters sent to the
content endpoint (`none` when that endpoint was never contacted) and the
tool's result. -/
structure FetchCall where
  contentParams : Option (List String)
  result : Except PyExc Json

/-- `fetch_doc_content` after the internal catalog fetch (`main.py` lines
158-221), taking the outcome of parsing the internally fetched catalog as
input: validate `doc_uid` against the catalog, short-circuit on failure,
otherwise build the mode-dependent query and handle the content response. -/
def fetchCore (uid : String) (start max_length : Option Int)
    (ranges : Option String) (docsData : Except PyExc Json)
    (contentResp : HttpResponse) : FetchCall :=
  let documents := extractDocuments docsData
  match iterAnyId documents uid with
  | .error e => { contentParams := none, result := .error e }
  | .ok false => { contentParams := none, result := .ok (notFoundObj uid) }
  | .ok true =>
    let params := buildParams start max_length ranges
    { contentParams := some params, result := contentHandleResponse contentResp }

/-- The `fetch_doc_content` tool (`main.py` lines 156-221).  It first calls
`list_all_docs(limit=1000, offset=0)`; an exception raised by that call
propagates (line 157 is outside the `try`).  On a string result, parsing it
back (`json.loads` of `json.dumps` output) yields the same value. -/
def fetch_doc_content (uid : String) (start max_length : Option Int)
    (ranges : Option String) (backend : Int → Int → HttpResponse)
    (contentResp : HttpResponse) : FetchCall :=
  match (list_all_docs 1000 0 backend).result with
  | .error e => { contentParams := none, result := .error e }
  | .ok docs => fetchCore uid start max_length ranges (.ok docs) contentResp

/-- The HTTP-failure error object of `list_all_docs` (lines 76-78). -/
def listFailObj (c : Int) : Json :=
  .obj [("error", .str "list_all_docs failed"), ("status", .num c)]

/-- The HTTP-failure error object of `fetch_doc_content` (lines 196-198). -/
def fetchFailObj (c : Int) : Json :=
  .obj [("error", .str "fetch_doc_content failed"), ("status", .num c)]

/-- Modelled from the spec: the backend document-listing endpoint (external
to this repository, `GET {base}/api/list_all_docs?limit=&offset=`) pages its
catalog of document descriptors by `offset` and `limit` and returns them as
`{"documents": [{"id": ...}, ...]}`. -/
def backendListing (catalog : List String) : Int → Int → HttpResponse :=
  fun limit offset =>
    ⟨200, some (.obj [("documents",
      .arr (((catalog.drop offset.toNat).take limit.toNat).map
        (fun i => .obj [("id", .str i)])))])⟩

/-! ### Helper lemmas -/

/-- Python's `k in d` on a dict agrees with `jlookup` being defined. -/
theorem any_key_eq_isSome (kvs : List (String × Json)) (k : String) :
    kvs.any (fun p => p.1 == k) = (jlookup kvs k).isSome := by
  induction kvs with
  | nil => rfl
  | cons p ps ih =>
    by_cases h : p.1 == k
    · simp [jlookup, List.find?, h]
    · simp only [List.any_cons, jlookup, List.find?] at *
      rw [Bool.eq_false_iff.mpr h] at *
      simpa using ih

/-- After `setKey kvs k v` the key `k` is present. -/
theorem setKey_any (kvs : List (String × Json)) (k : String) (v : Json) :
    (setKey kvs k v).any (fun p => p.1 == k) = true := by
  unfold setKey
  split
  · next h =>
    rw [List.any_eq_true] at h ⊢
    obtain ⟨p, hp, hpk⟩ := h
    refine ⟨(k, v), List.mem_map.mpr ⟨p, hp, ?_⟩, by simp⟩
    simp [hpk]
  · rw [List.any_eq_true]
    exact ⟨(k, v), by simp, by simp⟩

/-- `list_all_docs` in closed form: the clamped parameters are
`min (max limit 1) 1000` and `max offset 0`, and the result is the handled
response of the backend at those values. -/
theorem list_all_docs_eq (limit offset : Int)
    (backend : Int → Int → HttpResponse) :
    list_all_docs limit offset backend =
      { sentLimit := min (max limit 1) 1000,
        sentOffset := max offset 0,
        result := listHandleResponse (min (max limit 1) 1000) (max offset 0)
          (backend (min (max limit 1) 1000) (max offset 0)) } := by
  have h1 : (if (if limit < 1 then 1 else limit) > 1000 then 1000
      else if limit < 1 then 1 else limit) = min (max limit 1) 1000 := by
    split_ifs <;> omega
  have h2 : (if offset < 0 then 0 else offset) = max offset 0 := by
    split_ifs <;> omega
  simp only [list_all_docs]
  rw [h1, h2]

/-- The Single-Range branch in closed form: the clamps are
`max (start or 0) 0` and `clamp (max_length or 10000) [1, 50000]`. -/
theorem buildParams_single (start max_length : Option Int)
    (h : start.isSome ∨ max_length.isSome) :
    buildParams.buildSingleOrIndex start max_length
      = ["start=" ++ toString (max (start.getD 0) 0),
         "max_length=" ++ toString (min (max (max_length.getD 10000) 1) 50000)] := by
  have hs : (if start.getD 0 < 0 then 0 else start.getD 0)
      = max (start.getD 0) 0 := by split_ifs <;> omega
  have hm : (if (if max_length.getD 10000 < 1 then 1 else max_length.getD 10000) > 50000
        then 50000 else if max_length.getD 10000 < 1 then 1 else max_length.getD 10000)
      = min (max (max_length.getD 10000) 1) 50000 := by split_ifs <;> omega
  simp only [buildParams.buildSingleOrIndex, if_pos h]
  rw [hs, hm]

/-- The membership scan returns `false` on a list of descriptors whose ids
all differ from `uid`. -/
theorem checkAnyId_map_false (l : List String) (uid : String) (h : uid ∉ l) :
    checkAnyId (l.map (fun i => .obj [("id", .str i)])) uid = .ok false := by
  induction l with
  | nil => rfl
  | cons a as ih =>
    simp only [List.mem_cons, not_or] at h
    have hne : (a == uid) = false := by
      rw [beq_eq_false_iff_ne]
      exact fun hh => h.1 hh.symm
    simp [checkAnyId, jlookup, List.find?, hne]
    exact ih h.2

/-- `contentHandleResponse` on a 200 response whose body is a dict with an
object-valued (or absent) `meta`: the exact result object. -/
theorem contentHandleResponse_obj (kvs mkvs : List (String × Json))
    (hmeta : (jlookup kvs "meta").getD (.obj []) = .obj mkvs) :
    contentHandleResponse ⟨200, some (.obj kvs)⟩
      = .ok (.obj ([("document", (jlookup kvs "document").getD (.obj [])),
                    ("meta", .obj mkvs)]
          ++ (match jlookup mkvs "has_more" with
              | some v => [("has_more", v)]
              | none => [])
          ++ (match jlookup mkvs "next_start" with
              | some v => [("next_start", v)]
              | none => []))) := by
  cases hm : jlookup mkvs "has_more" <;> cases hn : jlookup mkvs "next_start" <;>
    simp [contentHandleResponse, pyGetD, pyIn, hmeta, any_key_eq_isSome, hm, hn,
      Bind.bind, Except.bind, pure, Except.pure]

/-- On a 200 content response the result is an exception, the decode-failure
object, or an object whose first two members are `document` and `meta`. -/
theorem contentHandleResponse_200_shape (body : Option Json) :
    (∃ e, contentHandleResponse ⟨200, body⟩ = .error e) ∨
    contentHandleResponse ⟨200, body⟩
      = .ok (.obj [("error", .str "Failed to decode JSON from fetch_doc_content")]) ∨
    (∃ d m rest, contentHandleResponse ⟨200, body⟩
      = .ok (.obj (("document", d) :: ("meta", m) :: rest))) := by
  match body with
  | none => exact Or.inr (Or.inl rfl)
  | some (.null) => exact Or.inl ⟨.attributeError, rfl⟩
  | some (.bool b) => exact Or.inl ⟨.attributeError, rfl⟩
  | some (.num n) => exact Or.inl ⟨.attributeError, rfl⟩
  | some (.str s) => exact Or.inl ⟨.attributeError, rfl⟩
  | some (.arr xs) => exact Or.inl ⟨.attributeError, rfl⟩
  | some (.obj kvs) =>
    match hmeta : (jlookup kvs "meta").getD (.obj []) with
    | .obj mkvs =>
      exact Or.inr (Or.inr ⟨_, _, _, contentHandleResponse_obj kvs mkvs hmeta⟩)
    | .null =>
      refine Or.inl ⟨.typeError, ?_⟩
      simp [contentHandleResponse, pyGetD, pyIn, hmeta, Bind.bind, Except.bind]
    | .bool b =>
      refine Or.inl ⟨.typeError, ?_⟩
      simp [contentHandleResponse, pyGetD, pyIn, hmeta, Bind.bind, Except.bind]
    | .num n =>
      refine Or.inl ⟨.typeError, ?_⟩
      simp [contentHandleResponse, pyGetD, pyIn, hmeta, Bind.bind, Except.bind]
    | .str s =>
      cases hb1 : decide ("has_more".toList <:+: s.toList) with
      | true =>
        refine Or.inl ⟨.attributeError, ?_⟩
        simp at hb1
        simp [contentHandleResponse, pyGetD, pyIn, hmeta, hb1, Bind.bind, Except.bind]
      | false =>
        cases hb2 : decide ("next_start".toList <:+: s.toList) with
        | true =>
          refine Or.inl ⟨.attributeError, ?_⟩
          simp at hb1 hb2
          simp [contentHandleResponse, pyGetD, pyIn, hmeta, hb1, hb2, Bind.bind,
            Except.bind, pure, Except.pure]
        | false =>
          refine Or.inr (Or.inr
            ⟨(jlookup kvs "document").getD (.obj []), .str s, [], ?_⟩)
          simp at hb1 hb2
          simp [contentHandleResponse, pyGetD, pyIn, hmeta, hb1, hb2, Bind.bind,
            Except.bind, pure, Except.pure]
    | .arr xs =>
      cases hb1 : (xs.any (fun x => match x with | .str t => t == "has_more" | _ => false)) with
      | true =>
        refine Or.inl ⟨.attributeError, ?_⟩
        simp [contentHandleResponse, pyGetD, pyIn, hmeta, hb1, Bind.bind, Except.bind]
      | false =>
        cases hb2 : (xs.any (fun x => match x with | .str t => t == "next_start" | _ => false)) with
        | true =>
          refine Or.inl ⟨.attributeError, ?_⟩
          simp [contentHandleResponse, pyGetD, pyIn, hmeta, hb1, hb2, Bind.bind,
            Except.bind, pure, Except.pure]
        | false =>
          refine Or.inr (Or.inr
            ⟨(jlookup kvs "document").getD (.obj []), .arr xs, [], ?_⟩)
          simp [contentHandleResponse, pyGetD, pyIn, hmeta, hb1, hb2, Bind.bind,
            Except.bind, pure, Except.pure]

/-! ### Claims -/

/-- C4: for every integer `limit` and `offset` passed to `list_all_docs`,
the values sent to the backend satisfy the clamp law — `limit` is clamped
into `[1, 1000]`, `offset` into `[0, ∞)`, in-range values pass through
unchanged — and no input is ever rejected: the call behaves exactly as it
does on the already-clamped input. -/
theorem C4_list_clamp_law (limit offset : Int)
    (backend : Int → Int → HttpResponse) :
    (list_all_docs limit offset backend).sentLimit = min (max limit 1) 1000 ∧
    (list_all_docs limit offset backend).sentOffset = max offset 0 ∧
    list_all_docs limit offset backend
      = list_all_docs (min (max limit 1) 1000) (max offset 0) backend := by
  rw [list_all_docs_eq limit offset backend,
    list_all_docs_eq (min (max limit 1) 1000) (max offset 0) backend]
  have h1 : min (max (min (max limit 1) 1000) 1) 1000 = min (max limit 1) 1000 := by
    omega
  have h2 : max (max offset 0) 0 = max offset 0 := by omega
  rw [h1, h2]
  exact ⟨rfl, rfl, rfl⟩

/-- C2: refuted on the code — a 200 listing response whose body is valid
JSON but not an object makes `list_all_docs` raise `TypeError` at the
`data["_request"] = ...` assignment, so an exception propagates instead of
a JSON string being returned. -/
theorem C2_nonobject_body_raises :
    (list_all_docs 100 0 (fun _ _ => ⟨200, some (.arr [])⟩)).result
      = .error .typeError := rfl

/-- C7: the catalog-validation step of `fetch_doc_content` fails closed:
when parsing the internally fetched catalog raised an exception, or parsed
it to a non-object (so the `.get` raises), the caught failure leaves the
document set empty and the call returns the not-found error without
contacting the content endpoint. -/
theorem C7_validation_fails_closed (uid : String) (start max_length : Option Int)
    (ranges : Option String) (e : PyExc) (contentResp : HttpResponse) :
    fetchCore uid start max_length ranges (.error e) contentResp
      = { contentParams := none, result := .ok (notFoundObj uid) } ∧
    ∀ j : Json, (∀ kvs, j ≠ .obj kvs) →
      fetchCore uid start max_length ranges (.ok j) contentResp
        = { contentParams := none, result := .ok (notFoundObj uid) } := by
  refine ⟨rfl, ?_⟩
  intro j hj
  match j with
  | .null => rfl
  | .bool b => rfl
  | .num n => rfl
  | .str s => rfl
  | .arr xs => rfl
  | .obj kvs => exact absurd rfl (hj kvs)

/-- C7 witness: a catalog that parsed to the number 3 is treated as empty. -/
theorem C7_validation_fails_closed_witness :
    fetchCore "abc" none none none (.ok (.num 3)) ⟨200, some (.obj [])⟩
      = { contentParams := none, result := .ok (notFoundObj "abc") } :=
  (C7_validation_fails_closed "abc" none none none .typeError
    ⟨200, some (.obj [])⟩).2 (.num 3) (fun _ h => Json.noConfusion h)

/-- C9: when the internal limit 1000 / offset 0 catalog fetch receives a
non-200 status, `fetch_doc_content` returns the not-found error object —
the internal error payload has no `documents` key — and never contacts the
content endpoint, so a listing outage is indistinguishable from a missing
document. -/
theorem C9_listing_outage_is_not_found (uid : String)
    (start max_length : Option Int) (ranges : Option String)
    (backend : Int → Int → HttpResponse) (contentResp : HttpResponse)
    (h : (backend 1000 0).status ≠ 200) :
    fetch_doc_content uid start max_length ranges backend contentResp
      = { contentParams := none, result := .ok (notFoundObj uid) } := by
  have hres : (list_all_docs 1000 0 backend).result
      = .ok (.obj [("error", .str "list_all_docs failed"),
                   ("status", .num ((backend 1000 0).status : Int))]) := by
    show listHandleResponse 1000 0 (backend 1000 0) = _
    unfold listHandleResponse
    rw [if_pos h]
  unfold fetch_doc_content
  rw [hres]
  rfl

/-- C9 witness: a 500 from the listing endpoint yields the not-found
object. -/
theorem C9_listing_outage_is_not_found_witness :
    fetch_doc_content "abc" none none none (fun _ _ => ⟨500, none⟩)
      ⟨200, some (.obj [])⟩
      = { contentParams := none, result := .ok (notFoundObj "abc") } :=
  C9_listing_outage_is_not_found "abc" none none none (fun _ _ => ⟨500, none⟩)
    ⟨200, some (.obj [])⟩ (by decide)

/-- C1 counterexample: `ranges` supplied as the empty string is present,
yet the code selects Single-Range (using the supplied `start`), not
Multi-Range — parameter presence alone does not determine the mode. -/
theorem C1_counterexample :
    buildParams (some 5) none (some "") = ["start=5", "max_length=10000"] ∧
    buildParams (some 5) none (some "") ≠ ["ranges="] := by
  refine ⟨rfl, ?_⟩
  intro h
  have h2 : (["start=5", "max_length=10000"] : List String) = ["ranges="] := h
  simp at h2

/-- C1 (amended): mode selection in `fetch_doc_content` is a pure function
of the truthiness of the optional parameters: a present non-empty `ranges`
yields the Multi-Range query with `start` and `max_length` ignored, an
absent or empty `ranges` with `start` or `max_length` present yields the
Single-Range query with defaults filled and clamped, and otherwise no
query parameters are sent (Index mode). -/
theorem C1_mode_selection (uid : String) (start max_length : Option Int)
    (ranges : Option String) (docsData : Except PyExc Json)
    (contentResp : HttpResponse)
    (hval : iterAnyId (extractDocuments docsData) uid = .ok true) :
    (∀ r : String, ranges = some r → r ≠ "" →
      (fetchCore uid start max_length ranges docsData contentResp).contentParams
        = some ["ranges=" ++ r]) ∧
    ((ranges = none ∨ ranges = some "") → start.isSome ∨ max_length.isSome →
      (fetchCore uid start max_length ranges docsData contentResp).contentParams
        = some ["start=" ++ toString (max (start.getD 0) 0),
                "max_length=" ++ toString (min (max (max_length.getD 10000) 1) 50000)]) ∧
    ((ranges = none ∨ ranges = some "") → start = none → max_length = none →
      (fetchCore uid start max_length ranges docsData contentResp).contentParams
        = some []) := by
  have hcore : (fetchCore uid start max_length ranges docsData contentResp).contentParams
      = some (buildParams start max_length ranges) := by
    simp only [fetchCore, hval]
  refine ⟨?_, ?_, ?_⟩
  · intro r hr hne
    rw [hcore, hr]
    simp [buildParams, hne]
  · intro hr hsm
    rw [hcore]
    rcases hr with hr | hr <;> rw [hr] <;>
      simp [buildParams, buildParams_single start max_length hsm]
  · intro hr hs hm
    rw [hcore]
    subst hs
    subst hm
    rcases hr with hr | hr <;> rw [hr] <;> rfl

/-- C1 witness: Scenario D — `ranges` non-empty with `start` and
`max_length` also supplied gives the Multi-Range query. -/
theorem C1_mode_selection_witness :
    (fetchCore "abc123" (some 1) (some 2) (some "0-120,400-550")
        (.ok (.obj [("documents", .arr [.obj [("id", .str "abc123")]])]))
        ⟨200, some (.obj [])⟩).contentParams
      = some ["ranges=0-120,400-550"] :=
  (C1_mode_selection "abc123" (some 1) (some 2) (some "0-120,400-550")
      (.ok (.obj [("documents", .arr [.obj [("id", .str "abc123")]])]))
      ⟨200, some (.obj [])⟩ rfl).1 "0-120,400-550" rfl (by decide)

/-- C5: in Single-Range mode (`ranges` absent, `start` or `max_length`
supplied), the `start` sent to the backend is `max(start or 0, 0)` and the
`max_length` sent is the supplied value (default 10000 when absent)
clamped into `[1, 50000]`. -/
theorem C5_single_range_clamp (uid : String) (start max_length : Option Int)
    (docsData : Except PyExc Json) (contentResp : HttpResponse)
    (hval : iterAnyId (extractDocuments docsData) uid = .ok true)
    (hsm : start.isSome ∨ max_length.isSome) :
    (fetchCore uid start max_length none docsData contentResp).contentParams
      = some ["start=" ++ toString (max (start.getD 0) 0),
              "max_length=" ++ toString (min (max (max_length.getD 10000) 1) 50000)] := by
  simp only [fetchCore, hval]
  simp [buildParams, buildParams_single start max_length hsm]

/-- C5 witness: a negative `start` is floored to 0 and an oversized
`max_length` is capped at 50000. -/
theorem C5_single_range_clamp_witness :
    (fetchCore "abc" (some (-7)) (some 99999) none
        (.ok (.obj [("documents", .arr [.obj [("id", .str "abc")]])]))
        ⟨200, some (.obj [])⟩).contentParams
      = some ["start=0", "max_length=50000"] :=
  (C5_single_range_clamp "abc" (some (-7)) (some 99999)
      (.ok (.obj [("documents", .arr [.obj [("id", .str "abc")]])]))
      ⟨200, some (.obj [])⟩ rfl (Or.inl rfl)).trans (by decide)

/-- C3 counterexample: a catalog whose `documents` list holds a non-object
entry (the number 0 — so no entry has an id equal to the requested uid)
makes the call raise `AttributeError` instead of returning the not-found
object. -/
theorem C3_counterexample :
    (fetch_doc_content "zzz" none none none
        (fun _ _ => ⟨200, some (.obj [("documents", .arr [.num 0])])⟩)
        ⟨200, some (.obj [])⟩).result
      = .error .attributeError ∧
    (fetch_doc_content "zzz" none none none
        (fun _ _ => ⟨200, some (.obj [("documents", .arr [.num 0])])⟩)
        ⟨200, some (.obj [])⟩).result
      ≠ .ok (notFoundObj "zzz") := by
  refine ⟨rfl, ?_⟩
  intro h
  have h2 : (Except.error PyExc.attributeError : Except PyExc Json)
      = .ok (notFoundObj "zzz") := h
  exact Except.noConfusion h2

/-- C3 (amended): whenever the membership scan over the freshly fetched
catalog completes without an exception and finds no id equal to `doc_uid`
(in particular when every scanned entry is a JSON object and none has a
matching id), `fetch_doc_content` returns exactly the not-found error
object and issues no request to the content endpoint, regardless of
`start`, `max_length` and `ranges`. -/
theorem C3_unknown_uid_short_circuits (uid : String)
    (start max_length : Option Int) (ranges : Option String)
    (backend : Int → Int → HttpResponse) (contentResp : HttpResponse)
    (docs : Json)
    (hlist : (list_all_docs 1000 0 backend).result = .ok docs)
    (hscan : iterAnyId (extractDocuments (.ok docs)) uid = .ok false) :
    fetch_doc_content uid start max_length ranges backend contentResp
      = { contentParams := none, result := .ok (notFoundObj uid) } := by
  simp only [fetch_doc_content, hlist, fetchCore, hscan]

/-- C3 witness: Scenario B — uid `zzz` against a catalog holding only
`abc` is reported not found with no content request, range parameters
notwithstanding. -/
theorem C3_unknown_uid_short_circuits_witness :
    fetch_doc_content "zzz" (some 3) none (some "0-5")
      (fun _ _ => ⟨200, some (.obj [("documents", .arr [.obj [("id", .str "abc")]])])⟩)
      ⟨200, some (.obj [])⟩
      = { contentParams := none, result := .ok (notFoundObj "zzz") } :=
  C3_unknown_uid_short_circuits "zzz" (some 3) none (some "0-5")
    (fun _ _ => ⟨200, some (.obj [("documents", .arr [.obj [("id", .str "abc")]])])⟩)
    ⟨200, some (.obj [])⟩ _ rfl rfl

/-- C6 counterexample: status 204 is a success (2xx) status, yet the code,
which tests `!= 200`, returns the HTTP-failure error object for it. -/
theorem C6_counterexample :
    listHandleResponse 100 0 ⟨204, some (.obj [("documents", .arr [])])⟩
      = .ok (listFailObj 204) := rfl

/-- C6 (amended): both tools return their HTTP-failure error object
`{"error": "... failed", "status": <code>}` exactly when the endpoint's
status differs from 200 — not "non-2xx": any status other than exactly 200,
including other success codes such as 204, produces it, and status 200
never does. -/
theorem C6_http_error_iff_not_200 (limit offset : Int)
    (resp cresp : HttpResponse) :
    (resp.status ≠ 200 →
      listHandleResponse limit offset resp = .ok (listFailObj (resp.status : Int))) ∧
    ((∃ c, listHandleResponse limit offset resp = .ok (listFailObj c)) →
      resp.status ≠ 200) ∧
    (cresp.status ≠ 200 →
      contentHandleResponse cresp = .ok (fetchFailObj (cresp.status : Int))) ∧
    ((∃ c, contentHandleResponse cresp = .ok (fetchFailObj c)) →
      cresp.status ≠ 200) := by
  refine ⟨?_, ?_, ?_, ?_⟩
  · intro h
    unfold listHandleResponse
    rw [if_pos h]
    rfl
  · rintro ⟨c, hc⟩ h200
    unfold listHandleResponse at hc
    rw [if_neg (fun hn => hn h200)] at hc
    cases hb : resp.body with
    | none =>
      rw [hb] at hc
      simp [listFailObj] at hc
    | some data =>
      rw [hb] at hc
      match data with
      | .null | .bool _ | .num _ | .str _ | .arr _ => exact Except.noConfusion hc
      | .obj kvs =>
        simp only [Except.ok.injEq, listFailObj, Json.obj.injEq] at hc
        have hany := setKey_any kvs "_request"
          (.obj [("limit", .num limit), ("offset", .num offset)])
        rw [hc] at hany
        simp at hany
  · intro h
    unfold contentHandleResponse
    rw [if_pos h]
    rfl
  · rintro ⟨c, hc⟩ h200
    have hcr : cresp = ⟨200, cresp.body⟩ := by
      cases cresp
      simp_all
    rw [hcr] at hc
    rcases contentHandleResponse_200_shape cresp.body with ⟨e, he⟩ | hd | ⟨d, m, rest, hs⟩
    · rw [he] at hc
      exact Except.noConfusion hc
    · rw [hd] at hc
      simp [fetchFailObj] at hc
    · rw [hs] at hc
      simp [fetchFailObj] at hc

/-- C6 witness: concrete instances of both positive directions. -/
theorem C6_http_error_iff_not_200_witness :
    listHandleResponse 100 0 ⟨503, none⟩ = .ok (listFailObj 503) ∧
    contentHandleResponse ⟨404, some (.obj [])⟩ = .ok (fetchFailObj 404) :=
  ⟨(C6_http_error_iff_not_200 100 0 ⟨503, none⟩ ⟨404, some (.obj [])⟩).1
      (by decide),
   (C6_http_error_iff_not_200 100 0 ⟨503, none⟩ ⟨404, some (.obj [])⟩).2.2.1
      (by decide)⟩

/-- C8 counterexample: a 200 content response whose `meta` is the number 5
makes the call raise `TypeError` at the `"has_more" in meta` test instead
of returning an object of the claimed shape. -/
theorem C8_counterexample :
    (fetch_doc_content "abc" none none none
        (fun _ _ => ⟨200, some (.obj [("documents", .arr [.obj [("id", .str "abc")]])])⟩)
        ⟨200, some (.obj [("meta", .num 5)])⟩).result
      = .error .typeError := rfl

/-- C8 (amended): on a successful content fetch (status 200, body a JSON
object) whose `meta` value — defaulting to the empty object when absent —
is itself a JSON object, the result contains exactly the keys `document`
and `meta` (each defaulting to an empty object when absent from the body),
plus a top-level `has_more` if and only if `meta` has that key, and a
top-level `next_start` if and only if `meta` has that key, with values
equal to those in `meta`. -/
theorem C8_success_shape (uid : String) (start max_length : Option Int)
    (ranges : Option String) (docsData : Except PyExc Json)
    (kvs mkvs : List (String × Json))
    (hval : iterAnyId (extractDocuments docsData) uid = .ok true)
    (hmeta : (jlookup kvs "meta").getD (.obj []) = .obj mkvs) :
    (fetchCore uid start max_length ranges docsData ⟨200, some (.obj kvs)⟩).result
      = .ok (.obj ([("document", (jlookup kvs "document").getD (.obj [])),
                    ("meta", .obj mkvs)]
          ++ (match jlookup mkvs "has_more" with
              | some v => [("has_more", v)] | none => [])
          ++ (match jlookup mkvs "next_start" with
              | some v => [("next_start", v)] | none => []))) := by
  simp only [fetchCore, hval]
  exact contentHandleResponse_obj kvs mkvs hmeta

/-- C8 witness: `meta` carrying `has_more` (and no `next_start`) surfaces
exactly `document`, `meta` and `has_more`. -/
theorem C8_success_shape_witness :
    (fetchCore "abc" none none none
        (.ok (.obj [("documents", .arr [.obj [("id", .str "abc")]])]))
        ⟨200, some (.obj [("meta", .obj [("has_more", .bool false)])])⟩).result
      = .ok (.obj [("document", .obj []),
                   ("meta", .obj [("has_more", .bool false)]),
                   ("has_more", .bool false)]) :=
  C8_success_shape "abc" none none none
    (.ok (.obj [("documents", .arr [.obj [("id", .str "abc")]])]))
    [("meta", .obj [("has_more", .bool false)])] [("has_more", .bool false)]
    rfl rfl

/-- C10: `fetch_doc_content` validates `doc_uid` only against the
limit 1000 / offset 0 page of the catalog: a document whose id appears in
the catalog only at listing position 1000 or later is reported as not
found and the content endpoint is never contacted, for every `start`,
`max_length` and `ranges`. -/
theorem C10_validates_first_page_only (uid : String) (catalog : List String)
    (start max_length : Option Int) (ranges : Option String)
    (contentResp : HttpResponse)
    (_hmem : uid ∈ catalog) (hpage : uid ∉ catalog.take 1000) :
    fetch_doc_content uid start max_length ranges (backendListing catalog)
      contentResp
      = { contentParams := none, result := .ok (notFoundObj uid) } := by
  have hres : (list_all_docs 1000 0 (backendListing catalog)).result
      = .ok (.obj [("documents",
          .arr ((catalog.take 1000).map (fun i => .obj [("id", .str i)]))),
          ("_request", .obj [("limit", .num 1000), ("offset", .num 0)])]) := rfl
  have hscan : iterAnyId (extractDocuments (.ok (.obj [("documents",
        .arr ((catalog.take 1000).map (fun i => .obj [("id", .str i)]))),
        ("_request", .obj [("limit", .num 1000), ("offset", .num 0)])]))) uid
      = .ok false := by
    show checkAnyId ((catalog.take 1000).map (fun i => .obj [("id", .str i)])) uid
      = .ok false
    exact checkAnyId_map_false (catalog.take 1000) uid hpage
  simp only [fetch_doc_content, hres, fetchCore, hscan]

/-- C10 witness: a catalog of 1000 other descriptors followed by the target
one: the target exists but is reported not found. -/
theorem C10_validates_first_page_only_witness :
    fetch_doc_content "zzz" none none none
      (backendListing (List.replicate 1000 "doc" ++ ["zzz"]))
      ⟨200, some (.obj [])⟩
      = { contentParams := none, result := .ok (notFoundObj "zzz") } := by
  apply C10_validates_first_page_only
  · exact List.mem_append_right _ (List.mem_singleton.mpr rfl)
  · have htake : (List.replicate 1000 "doc" ++ ["zzz"]).take 1000
        = List.replicate 1000 "doc" := by
      have h := List.take_left (List.replicate 1000 "doc") ["zzz"]
      rw [List.length_replicate] at h
      exact h
    rw [htake]
    intro hmem
    have hd := List.eq_of_mem_replicate hmem
    exact absurd hd (by decide)

end Docuscribe
